import Mathlib

/-
Verification of the return-recommendation engine of the winmaxreturn
repository (src/app.py), as a shallow embedding in Lean 4.

Modelling conventions:
- A raw spreadsheet cell of a numeric column is `RawVal`: `na` models a
  pandas NA/NaN cell, `num q` a cell whose value parses as the (exact)
  number q, and `bad` a cell on which `int(float(value))` raises.
  Python floats are modelled by exact rationals.
- A raw cell of a string column is `RawStr`: `na` models NA, `s v` a cell
  whose `str(value).strip()`-relevant content is the string v.
- `preprocess_data` (app.py lines 46-80) is modelled row-by-row by
  `preprocess_row`; the dataframe is a `List` of rows.
- `np.percentile(xs, 80)` uses linear interpolation; it is modelled over
  exact rationals (`np_percentile_80`).
- `float('inf')` as a sentinel threshold is modelled by `Option ℚ` with
  `none` standing for plus infinity (`lt_threshold`).
- `1.25` is exactly representable in binary floating point, and
  `safety_stock * 1.25` is exact for all in-scope magnitudes, so it is
  modelled by the exact rational 5/4; Python `int(...)` truncation toward
  zero is `int_trunc`.
-/

namespace WinMax

/-- A raw cell of a numeric column (app.py `safe_convert_to_int` input). -/
inductive RawVal where
  | na
  | num (q : ℚ)
  | bad
deriving DecidableEq

/-- A raw cell of a string column. -/
inductive RawStr where
  | na
  | s (v : String)
deriving DecidableEq

/-- Python `int(...)` on a (finite) number: truncation toward zero. -/
def int_trunc (q : ℚ) : ℤ :=
  if 0 ≤ q then ⌊q⌋ else ⌈q⌉

/-- app.py lines 31-38: `safe_convert_to_int` — NA and unparsable cells
become 0, numbers are truncated by `int(float(value))` and floored at 0. -/
def safe_convert_to_int : RawVal → ℤ
  | .na => 0
  | .num q => max 0 (int_trunc q)
  | .bad => 0

/-- app.py lines 40-44: `safe_convert_to_string`. -/
def safe_convert_to_string : RawStr → String
  | .na => ""
  | .s v => v.trim

/-- Python `str.isdigit` on ASCII content: nonempty and all digits. -/
def isdigit (s : String) : Bool :=
  !s.isEmpty && s.all Char.isDigit

/-- Python `str.zfill(12)`: left-pad with zeros to length 12. -/
def zfill12 (s : String) : String :=
  String.mk (List.replicate (12 - s.length) '0') ++ s

/-- app.py lines 18-29: `convert_to_string_format` — canonicalise the
Article cell to a 12-character zero-padded digit string when possible. -/
def convert_to_string_format : RawStr → String
  | .na => ""
  | .s v =>
    let s1 := v.trim
    let s2 := if s1.contains '.' then (s1.splitOn ".").headD "" else s1
    if isdigit s2 = true ∧ s2.length ≤ 12 then zfill12 s2 else s2

/-- A raw input row (one record of the uploaded table), all columns present. -/
structure RawRow where
  article : RawStr
  articleDescription : RawStr
  productHierarchy : RawStr
  om : RawStr
  rpType : RawStr
  site : RawStr
  sasaNetStock : RawVal
  pendingReceived : RawVal
  safetyStock : RawVal
  lastMonthSoldQty : RawVal
  mtdSoldQty : RawVal
  notes : RawStr
deriving DecidableEq

/-- A normalized row, as produced by `preprocess_data` and consumed by
`generate_return_recommendations`. -/
structure Row where
  article : String
  articleDescription : String
  productHierarchy : String
  om : String
  rpType : String
  site : String
  sasaNetStock : ℤ
  pendingReceived : ℤ
  safetyStock : ℤ
  lastMonthSoldQty : ℤ
  mtdSoldQty : ℤ
  notes : String
deriving DecidableEq

/-- Value of an untouched passthrough string cell (Article Description,
Product Hierarchy): carried unchanged; an NA cell is modelled as "". -/
def raw_passthrough : RawStr → String
  | .na => ""
  | .s v => v

/-- app.py lines 46-80: `preprocess_data`, per row.  Article is
canonicalised, string columns trimmed, integer columns coerced via
`safe_convert_to_int`, the two sales columns clamped at 100000 with an
annotation naming the clamped column, and the Notes column REBUILT from
exactly those annotations (line 66 sets the whole Notes column to "",
discarding any input notes, before the loop fills it). -/
def preprocess_row (r : RawRow) : Row :=
  let lm0 := safe_convert_to_int r.lastMonthSoldQty
  let mtd0 := safe_convert_to_int r.mtdSoldQty
  let lmNotes := if 100000 < lm0 then ["Last Month Sold Qty銷量數據超出範圍"] else []
  let mtdNotes := if 100000 < mtd0 then ["MTD Sold Qty銷量數據超出範圍"] else []
  { article := convert_to_string_format r.article
    articleDescription := raw_passthrough r.articleDescription
    productHierarchy := raw_passthrough r.productHierarchy
    om := safe_convert_to_string r.om
    rpType := safe_convert_to_string r.rpType
    site := safe_convert_to_string r.site
    sasaNetStock := safe_convert_to_int r.sasaNetStock
    pendingReceived := safe_convert_to_int r.pendingReceived
    safetyStock := safe_convert_to_int r.safetyStock
    lastMonthSoldQty := if 100000 < lm0 then 100000 else lm0
    mtdSoldQty := if 100000 < mtd0 then 100000 else mtd0
    notes := String.intercalate "; " (lmNotes ++ mtdNotes) }

/-- app.py `preprocess_data` over the whole table (rows are processed
independently; no row is dropped). -/
def preprocess_data (df : List RawRow) : List Row :=
  df.map preprocess_row

/-- app.py lines 82-91: `calculate_effective_sold_qty`. -/
def calculate_effective_sold_qty (row : Row) : ℤ :=
  if 0 < row.lastMonthSoldQty then row.lastMonthSoldQty else row.mtdSoldQty

/-- `np.percentile(xs, 80)` with linear interpolation, over exact
rationals; only called on nonempty lists. -/
def np_percentile_80 (l : List ℤ) : ℚ :=
  let s := List.insertionSort (· ≤ ·) l
  let n := s.length
  let pos : ℚ := 4 * ((n : ℚ) - 1) / 5
  let i : ℕ := (⌊pos⌋).toNat
  let frac : ℚ := pos - (i : ℚ)
  let lo : ℚ := ((s.getD i 0 : ℤ) : ℚ)
  let hi : ℚ := ((s.getD (i + 1) 0 : ℤ) : ℚ)
  lo + frac * (hi - lo)

/-- app.py lines 93-109: `get_top20_percent_threshold`.  `none` models the
`float('inf')` returned for an article with no matching records. -/
def get_top20_percent_threshold (df : List Row) (article : String) : Option ℚ :=
  let article_data := df.filter (fun r => r.article = article)
  if article_data.isEmpty then none
  else
    let sold_quantities := article_data.map calculate_effective_sold_qty
    if sold_quantities.isEmpty then none
    else some (np_percentile_80 sold_quantities)

/-- `effective_sold_qty < top20_threshold` where `none` is plus infinity. -/
def lt_threshold (x : ℤ) : Option ℚ → Bool
  | none => true
  | some t => decide ((x : ℚ) < t)

/-- One output row of `generate_return_recommendations`. -/
structure Rec where
  article : String
  productDesc : String
  productHierarchy : String
  om : String
  returnSite : String
  receiveSite : String
  returnQty : ℤ
  rpType : String
  stockQty : ℤ
  safetyQty : ℤ
  lastMonthSoldQty : ℤ
  mtdSoldQty : ℤ
  remainingStockAfterReturn : ℤ
  notes : String
  typ : String
deriving DecidableEq

/-- app.py lines 135-164: the ND branch body (always emits). -/
def nd_branch_rec (row : Row) : Rec :=
  let return_qty := row.sasaNetStock
  let remaining_stock := row.sasaNetStock - return_qty
  let notes_parts :=
    ["ND類型退倉"]
      ++ (if 0 < calculate_effective_sold_qty row then
            ["曾有銷售記錄, Buyer需要留意是否需轉成RF及設定Safety"] else [])
      ++ (if row.notes ≠ "" then [row.notes] else [])
  { article := row.article
    productDesc := row.articleDescription
    productHierarchy := row.productHierarchy
    om := row.om
    returnSite := row.site
    receiveSite := "D001"
    returnQty := return_qty
    rpType := row.rpType
    stockQty := row.sasaNetStock
    safetyQty := row.safetyStock
    lastMonthSoldQty := row.lastMonthSoldQty
    mtdSoldQty := row.mtdSoldQty
    remainingStockAfterReturn := remaining_stock
    notes := String.intercalate "; " notes_parts
    typ := "ND" }

/-- app.py lines 179-186: the minimum stock that must remain after an RF
return; `int(safety_stock * 1.25)` is exact-rational truncation. -/
def compute_min_remaining (row : Row) : ℤ :=
  if row.safetyStock < row.lastMonthSoldQty ∨ row.safetyStock < row.mtdSoldQty then
    max (max (int_trunc ((row.safetyStock : ℚ) * (5 / 4 : ℚ))) (row.safetyStock + 2)) 0
  else
    max (row.safetyStock + 1) 0

/-- The Notes cell of an RF recommendation (rule provenance plus any
carried-forward normalization notes). -/
def rf_rec_notes (row : Row) : String :=
  String.intercalate "; " (["RF類型過剩退倉"] ++ (if row.notes ≠ "" then [row.notes] else []))

/-- app.py lines 167-218: the RF branch body (guards may suppress). -/
def rf_branch_rec (df : List Row) (row : Row) : Option Rec :=
  let total_available := row.sasaNetStock + row.pendingReceived
  if row.safetyStock < total_available then
    let top20_threshold := get_top20_percent_threshold df row.article
    if lt_threshold (calculate_effective_sold_qty row) top20_threshold then
      let min_remaining := compute_min_remaining row
      let potential_return := total_available - row.safetyStock
      let max_return := total_available - min_remaining
      let return_qty := min potential_return max_return
      if 2 ≤ return_qty ∧ return_qty ≤ row.sasaNetStock then
        some { article := row.article
               productDesc := row.articleDescription
               productHierarchy := row.productHierarchy
               om := row.om
               returnSite := row.site
               receiveSite := "D001"
               returnQty := return_qty
               rpType := row.rpType
               stockQty := row.sasaNetStock
               safetyQty := row.safetyStock
               lastMonthSoldQty := row.lastMonthSoldQty
               mtdSoldQty := row.mtdSoldQty
               remainingStockAfterReturn := row.sasaNetStock - return_qty
               notes := rf_rec_notes row
               typ := "RF" }
      else none
    else none
  else none

/-- app.py lines 111-220, one loop iteration: the single-shot per-record
classification (the ND branch, the `elif` RF branch, or nothing). -/
def evaluate_row (df : List Row) (calculation_type : String) (row : Row) : Option Rec :=
  if row.rpType = "ND" ∧ 0 < row.sasaNetStock ∧
      (calculation_type = "nd_only" ∨ calculation_type = "both") then
    some (nd_branch_rec row)
  else if row.rpType = "RF" ∧ (calculation_type = "rf_only" ∨ calculation_type = "both") then
    rf_branch_rec df row
  else
    none

/-- app.py lines 111-220: `generate_return_recommendations`. -/
def generate_return_recommendations (df : List Row) (calculation_type : String) : List Rec :=
  df.filterMap (evaluate_row df calculation_type)

/-- The spec's formula for the minimum remaining stock of the branch taken:
max(floor(safety_stock * 1.25), safety_stock + 2) when last_month_sold >
safety_stock or mtd_sold > safety_stock, else safety_stock + 1. -/
def min_remaining_spec (row : Row) : ℤ :=
  if row.safetyStock < row.lastMonthSoldQty ∨ row.safetyStock < row.mtdSoldQty then
    max ⌊(row.safetyStock : ℚ) * (5 / 4 : ℚ)⌋ (row.safetyStock + 2)
  else
    row.safetyStock + 1

lemma compute_min_remaining_eq_spec (row : Row) (h : 0 ≤ row.safetyStock) :
    compute_min_remaining row = min_remaining_spec row := by
  unfold compute_min_remaining min_remaining_spec
  have hq : (0 : ℚ) ≤ (row.safetyStock : ℚ) * (5 / 4 : ℚ) := by positivity
  rw [int_trunc, if_pos hq]
  split_ifs with hc
  · exact max_eq_left (le_trans (by omega : (0:ℤ) ≤ row.safetyStock + 2) (le_max_right _ _))
  · exact max_eq_left (by omega)

lemma rf_branch_rec_bounds (df : List Row) (row : Row) (rec : Rec)
    (heval : rf_branch_rec df row = some rec) :
    2 ≤ rec.returnQty ∧ rec.returnQty ≤ row.sasaNetStock ∧
      compute_min_remaining row ≤ row.sasaNetStock + row.pendingReceived - rec.returnQty := by
  simp only [rf_branch_rec] at heval
  split_ifs at heval with hta hth hq
  · injection heval with h2
    subst h2
    refine ⟨hq.1, hq.2, ?_⟩
    have hmin := min_le_right (row.sasaNetStock + row.pendingReceived - row.safetyStock)
      (row.sasaNetStock + row.pendingReceived - compute_min_remaining row)
    simp only []
    linarith [hmin]

lemma evaluate_row_rf_bounds (df : List Row) (ct : String) (row : Row) (rec : Rec)
    (hnorm : 0 ≤ row.safetyStock)
    (heval : evaluate_row df ct row = some rec) (hrf : rec.typ = "RF") :
    2 ≤ rec.returnQty ∧ rec.returnQty ≤ row.sasaNetStock ∧
      min_remaining_spec row ≤ row.sasaNetStock + row.pendingReceived - rec.returnQty := by
  unfold evaluate_row at heval
  split_ifs at heval with h1 h2
  · cases heval
    simp [nd_branch_rec] at hrf
  · rw [← compute_min_remaining_eq_spec row hnorm]
    exact rf_branch_rec_bounds df row rec heval

/-- Claim C1: every RF recommendation emitted by
`generate_return_recommendations` on a normalized table has
2 ≤ return_qty ≤ net_stock, and net_stock + pending_received - return_qty
is at least the min_remaining of the branch taken (max(floor(safety_stock
* 1.25), safety_stock + 2) when last_month_sold > safety_stock or
mtd_sold > safety_stock, else safety_stock + 1). -/
theorem rf_recommendation_bounds (df : List Row) (ct : String) (rec : Rec)
    (hnorm : ∀ r ∈ df, 0 ≤ r.safetyStock)
    (hmem : rec ∈ generate_return_recommendations df ct)
    (hrf : rec.typ = "RF") :
    ∃ row ∈ df, evaluate_row df ct row = some rec ∧
      2 ≤ rec.returnQty ∧ rec.returnQty ≤ row.sasaNetStock ∧
      min_remaining_spec row ≤ row.sasaNetStock + row.pendingReceived - rec.returnQty := by
  rw [generate_return_recommendations, List.mem_filterMap] at hmem
  obtain ⟨row, hrow, heval⟩ := hmem
  exact ⟨row, hrow, heval, evaluate_row_rf_bounds df ct row rec (hnorm row hrow) heval hrf⟩

/-- Claim C2: a record with rp_type = "ND" and net_stock > 0, when the
filter permits ND, yields exactly one recommendation (its per-record
evaluation is `some`), tagged ND, with return_qty = net_stock and hence
remaining stock 0; a record with rp_type = "ND" and net_stock = 0 yields
none. -/
theorem nd_rule (df : List Row) (ct : String) (row : Row) (hnd : row.rpType = "ND") :
    ((ct = "nd_only" ∨ ct = "both") → 0 < row.sasaNetStock →
      ∃ rec, evaluate_row df ct row = some rec ∧ rec.typ = "ND" ∧
        rec.returnQty = row.sasaNetStock ∧ rec.remainingStockAfterReturn = 0)
    ∧ (row.sasaNetStock = 0 → evaluate_row df ct row = none) := by
  constructor
  · intro hct hpos
    refine ⟨nd_branch_rec row, ?_, rfl, rfl, ?_⟩
    · simp [evaluate_row, hnd, hpos, hct]
    · simp [nd_branch_rec]
  · intro h0
    have hne : row.rpType ≠ "RF" := by rw [hnd]; decide
    simp [evaluate_row, hnd, h0, hne]

lemma evaluate_row_partition (df : List Row) (row : Row) :
    (evaluate_row df "both" row = evaluate_row df "nd_only" row ∧
      evaluate_row df "rf_only" row = none)
    ∨ (evaluate_row df "both" row = evaluate_row df "rf_only" row ∧
      evaluate_row df "nd_only" row = none) := by
  by_cases hnd : row.rpType = "ND"
  · have hne : row.rpType ≠ "RF" := by rw [hnd]; decide
    left
    by_cases hs : 0 < row.sasaNetStock
    · constructor <;> simp [evaluate_row, hnd, hne, hs]
    · constructor <;> simp [evaluate_row, hnd, hne, hs]
  · by_cases hrf : row.rpType = "RF"
    · right
      constructor <;> simp [evaluate_row, hnd, hrf]
    · left
      constructor <;> simp [evaluate_row, hnd, hrf]

lemma evaluate_row_nd_only_typ (df : List Row) (row : Row) (rec : Rec)
    (heval : evaluate_row df "nd_only" row = some rec) : rec.typ = "ND" := by
  unfold evaluate_row at heval
  split_ifs at heval with h1 h2
  · injection heval with h3
    subst h3
    rfl
  · exact absurd h2.2 (by decide)

lemma evaluate_row_rf_only_typ (df : List Row) (row : Row) (rec : Rec)
    (heval : evaluate_row df "rf_only" row = some rec) : rec.typ = "RF" := by
  unfold evaluate_row at heval
  split_ifs at heval with h1 h2
  · exact absurd h1.2.2 (by decide)
  · simp only [rf_branch_rec] at heval
    split_ifs at heval
    injection heval with h3
    subst h3
    rfl

lemma filterMap_partition_count (df : List Row) (rows : List Row) :
    (rows.filterMap (evaluate_row df "both")).length
      = (rows.filterMap (evaluate_row df "nd_only")).length
        + (rows.filterMap (evaluate_row df "rf_only")).length := by
  induction rows with
  | nil => rfl
  | cons a l ih =>
    rcases evaluate_row_partition df a with ⟨h1, h2⟩ | ⟨h1, h2⟩
    · cases ho : evaluate_row df "nd_only" a with
      | none =>
        have hb : evaluate_row df "both" a = none := by rw [h1, ho]
        simp only [List.filterMap_cons, ho, h2, hb]
        omega
      | some b =>
        have hb : evaluate_row df "both" a = some b := by rw [h1, ho]
        simp only [List.filterMap_cons, ho, h2, hb]
        simp only [List.length_cons]
        omega
    · cases ho : evaluate_row df "rf_only" a with
      | none =>
        have hb : evaluate_row df "both" a = none := by rw [h1, ho]
        simp only [List.filterMap_cons, ho, h2, hb]
        omega
      | some b =>
        have hb : evaluate_row df "both" a = some b := by rw [h1, ho]
        simp only [List.filterMap_cons, ho, h2, hb]
        simp only [List.length_cons]
        omega

/-- Claim C3: for every table, the number of recommendations from
`both` equals the number from `nd_only` plus the number from `rf_only`,
every `nd_only` recommendation is tagged ND, and every `rf_only`
recommendation is tagged RF (each record's rp_type selects at most one
branch). -/
theorem filter_partition (df : List Row) :
    (generate_return_recommendations df "both").length
      = (generate_return_recommendations df "nd_only").length
        + (generate_return_recommendations df "rf_only").length
    ∧ (∀ rec ∈ generate_return_recommendations df "nd_only", rec.typ = "ND")
    ∧ (∀ rec ∈ generate_return_recommendations df "rf_only", rec.typ = "RF") := by
  refine ⟨filterMap_partition_count df df, ?_, ?_⟩
  · intro rec hmem
    rw [generate_return_recommendations, List.mem_filterMap] at hmem
    obtain ⟨row, _, heval⟩ := hmem
    exact evaluate_row_nd_only_typ df row rec heval
  · intro rec hmem
    rw [generate_return_recommendations, List.mem_filterMap] at hmem
    obtain ⟨row, _, heval⟩ := hmem
    exact evaluate_row_rf_only_typ df row rec heval

lemma np_percentile_80_singleton (x : ℤ) : np_percentile_80 [x] = (x : ℚ) := by
  simp [np_percentile_80, List.insertionSort, List.orderedInsert]

/-- Claim C4: the top-20% threshold of an article with no matching record
is plus infinity (`none`); with exactly one matching record it is that
record's effective_sold_qty, and such a lone RF record always fails the
strict `<` guard and is never emitted. -/
theorem top20_threshold_edge_cases (df : List Row) (a : String) (ct : String) (r : Row) :
    (df.filter (fun x => x.article = a) = [] → get_top20_percent_threshold df a = none)
    ∧ (df.filter (fun x => x.article = r.article) = [r] →
        get_top20_percent_threshold df r.article
          = some ((calculate_effective_sold_qty r : ℤ) : ℚ)
        ∧ (r.rpType = "RF" → evaluate_row df ct r = none)) := by
  constructor
  · intro h
    simp [get_top20_percent_threshold, h]
  · intro h
    have hth : get_top20_percent_threshold df r.article
        = some ((calculate_effective_sold_qty r : ℤ) : ℚ) := by
      simp [get_top20_percent_threshold, h, np_percentile_80_singleton]
    refine ⟨hth, ?_⟩
    intro hrf
    have hne : r.rpType ≠ "ND" := by rw [hrf]; decide
    have hlt : lt_threshold (calculate_effective_sold_qty r)
        (get_top20_percent_threshold df r.article) = false := by
      rw [hth]
      simp [lt_threshold]
    unfold evaluate_row
    rw [if_neg (by simp [hne])]
    split_ifs with h2
    · simp [rf_branch_rec, hlt]
    · rfl

/-- app.py lines 447-450 and 468-471: the source records matching a
recommendation's (Article, Return Site) pair, in table order. -/
def lookup_source (orig : List Row) (rec : Rec) : List Row :=
  orig.filter (fun o => o.article = rec.article ∧ o.site = rec.returnSite)

/-- app.py lines 446-455, one loop iteration of check 1: the lookup is
nonempty and its FIRST row (`.iloc[0]`) has the recommendation's OM. -/
def consistentB (orig : List Row) (rec : Rec) : Bool :=
  match lookup_source orig rec with
  | [] => false
  | o :: _ => o.om == rec.om

/-- app.py lines 445-457: check 1 (Article/OM consistency), a
for-else loop with break: the first failing recommendation produces the
failure message, otherwise the pass message. -/
def check1 (recs : List Rec) (orig : List Row) : String :=
  match recs.find? (fun rec => !consistentB orig rec) with
  | some rec => "❌ Article " ++ rec.article ++ " 和 OM " ++ rec.om ++ " 不一致"
  | none => "✅ Article 和 OM 一致性檢查通過"

/-- app.py lines 459-463: check 2 (Return Qty positive). -/
def check2 (recs : List Rec) : String :=
  if recs.all (fun rec => decide (0 < rec.returnQty)) then "✅ 所有 Return Qty 為正整數"
  else "❌ 存在非正整數的 Return Qty"

/-- app.py lines 467-476, one loop iteration of check 3: a recommendation
exceeds stock only when its lookup is nonempty and the first matching
source row's net stock is below the return quantity (an empty lookup is
skipped). -/
def exceedB (orig : List Row) (rec : Rec) : Bool :=
  match lookup_source orig rec with
  | [] => false
  | o :: _ => decide (o.sasaNetStock < rec.returnQty)

/-- app.py lines 465-481: check 3 (Return Qty within source stock). -/
def check3 (recs : List Rec) (orig : List Row) : String :=
  if recs.any (exceedB orig) then "❌ 存在 Return Qty 超過原庫存的情況"
  else "✅ Return Qty 不超過原庫存"

/-- app.py lines 483-487: check 4 (Article at most 12 characters). -/
def check4 (recs : List Rec) : String :=
  if recs.all (fun rec => decide (rec.article.length ≤ 12)) then "✅ Article 格式正確"
  else "❌ Article 格式異常"

/-- app.py lines 437-489: `quality_check`. -/
def quality_check (recs : List Rec) (orig : List Row) : List String :=
  if recs.isEmpty then ["✅ 無退貨建議生成"]
  else [check1 recs orig, check2 recs, check3 recs orig, check4 recs]

/-- Modelled from the spec's words, for the amended claim C8: the lookup
of (article_id, source_site) has a first source record and that record's
om equals the recommendation's om. -/
def first_match_consistent (orig : List Row) (rec : Rec) : Prop :=
  match (lookup_source orig rec).head? with
  | none => False
  | some o => o.om = rec.om

lemma consistentB_iff (orig : List Row) (rec : Rec) :
    consistentB orig rec = true ↔ first_match_consistent orig rec := by
  unfold consistentB first_match_consistent
  cases h : lookup_source orig rec with
  | nil => simp
  | cons o rest => simp

instance (orig : List Row) (rec : Rec) : Decidable (first_match_consistent orig rec) :=
  decidable_of_iff (consistentB orig rec = true) (consistentB_iff orig rec)

lemma head_char_append (s t : String) (c : Char) (h : s.data.head? = some c) :
    (s ++ t).data.head? = some c := by
  cases s with
  | mk l =>
    cases t with
    | mk m =>
      cases l with
      | nil => simp at h
      | cons a l2 =>
        simp only [String.data] at h
        injection h with h2
        subst h2
        rfl

lemma fail_msg_ne_pass (a o : String) :
    ("❌ Article " ++ a ++ " 和 OM " ++ o ++ " 不一致")
      ≠ "✅ Article 和 OM 一致性檢查通過" := by
  intro h
  have h1 : ("❌ Article " ++ a ++ " 和 OM " ++ o ++ " 不一致").data.head? = some '❌' := by
    apply head_char_append
    apply head_char_append
    apply head_char_append
    apply head_char_append
    rfl
  rw [h] at h1
  have h2 : ("✅ Article 和 OM 一致性檢查通過" : String).data.head? = some '✅' := rfl
  rw [h2] at h1
  injection h1 with h3
  exact absurd h3 (by decide)

lemma find?_first (p : Rec → Bool) (pre : List Rec) (rec : Rec) (post : List Rec)
    (hpre : ∀ x ∈ pre, p x = false) (hrec : p rec = true) :
    (pre ++ rec :: post).find? p = some rec := by
  induction pre with
  | nil =>
    simpa using List.find?_cons_of_pos post hrec
  | cons a l ih =>
    have ha : p a = false := hpre a (by simp)
    have hl : ∀ x ∈ l, p x = false := fun x hx => hpre x (by simp [hx])
    rw [List.cons_append, List.find?_cons_of_neg _ (by simp [ha])]
    exact ih hl

/-- Claim C8 (amended): check 1 passes exactly when every recommendation's
(article, source_site) lookup has at least one source record and the FIRST
matching record's om equals the recommendation's om (duplicates beyond the
first are ignored, not failed); the first failing recommendation
short-circuits the check with a failure naming its article and om. -/
theorem consistency_check_semantics (recs : List Rec) (orig : List Row) :
    (check1 recs orig = "✅ Article 和 OM 一致性檢查通過" ↔
      ∀ rec ∈ recs, first_match_consistent orig rec)
    ∧ (∀ pre rec post, recs = pre ++ rec :: post →
        (∀ x ∈ pre, first_match_consistent orig x) →
        ¬ first_match_consistent orig rec →
        check1 recs orig = "❌ Article " ++ rec.article ++ " 和 OM " ++ rec.om ++ " 不一致") := by
  constructor
  · unfold check1
    cases hf : recs.find? (fun rec => !consistentB orig rec) with
    | none =>
      simp only []
      constructor
      · intro _ rec hmem
        have h2 := List.find?_eq_none.mp hf rec hmem
        rw [← consistentB_iff]
        simpa using h2
      · intro _
        trivial
    | some r =>
      simp only []
      constructor
      · intro h
        exact absurd h (fail_msg_ne_pass r.article r.om)
      · intro hall
        have hmem := List.mem_of_find?_eq_some hf
        have hp := List.find?_some hf
        have h2 : ¬ first_match_consistent orig r := by
          rw [← consistentB_iff]
          simpa using hp
        exact absurd (hall r hmem) h2
  · intro pre rec post hrecs hpre hrec
    have hcb : consistentB orig rec = false := by
      cases hb : consistentB orig rec
      · rfl
      · exact absurd ((consistentB_iff orig rec).mp hb) hrec
    have hpre2 : ∀ x ∈ pre, (fun y => !consistentB orig y) x = false := by
      intro x hx
      have hx2 := (consistentB_iff orig x).mpr (hpre x hx)
      simp [hx2]
    have hf : recs.find? (fun y => !consistentB orig y) = some rec := by
      rw [hrecs]
      exact find?_first _ pre rec post hpre2 (by simp [hcb])
    unfold check1
    rw [hf]

/-- Source rows sharing one (Article, Site) pair with different OMs. -/
def src_dup1 : Row :=
  { article := "A1", articleDescription := "", productHierarchy := ""
    om := "X", rpType := "RF", site := "S1"
    sasaNetStock := 10, pendingReceived := 0, safetyStock := 0
    lastMonthSoldQty := 0, mtdSoldQty := 0, notes := "" }

def src_dup2 : Row :=
  { article := "A1", articleDescription := "", productHierarchy := ""
    om := "Y", rpType := "RF", site := "S1"
    sasaNetStock := 10, pendingReceived := 0, safetyStock := 0
    lastMonthSoldQty := 0, mtdSoldQty := 0, notes := "" }

def rec_dup : Rec :=
  { article := "A1", productDesc := "", productHierarchy := ""
    om := "X", returnSite := "S1", receiveSite := "D001"
    returnQty := 5, rpType := "RF", stockQty := 10, safetyQty := 0
    lastMonthSoldQty := 0, mtdSoldQty := 0
    remainingStockAfterReturn := 5, notes := "", typ := "RF" }

/-- Claim C8, counterexample: two source records share the recommendation's
(article_id, source_site) pair — the pair does NOT resolve to exactly one
source record — yet the consistency check reports a pass, because the code
only inspects the first match (`.iloc[0]`). -/
theorem consistency_check_counterexample :
    (lookup_source [src_dup1, src_dup2] rec_dup).length = 2
    ∧ check1 [rec_dup] [src_dup1, src_dup2] = "✅ Article 和 OM 一致性檢查通過" := by
  constructor <;> rfl

/-- A recommendation whose (article, source_site) matches no source row. -/
def rec_dangling : Rec :=
  { article := "ZZ", productDesc := "", productHierarchy := ""
    om := "X", returnSite := "S9", receiveSite := "D001"
    returnQty := 999, rpType := "RF", stockQty := 10, safetyQty := 0
    lastMonthSoldQty := 0, mtdSoldQty := 0
    remainingStockAfterReturn := 5, notes := "", typ := "RF" }

theorem consistency_check_semantics_witness :
    check1 [rec_dangling] [src_dup1] =
      "❌ Article " ++ rec_dangling.article ++ " 和 OM " ++ rec_dangling.om ++ " 不一致" :=
  (consistency_check_semantics [rec_dangling] [src_dup1]).2 [] rec_dangling [] rfl
    (by simp) (by decide)

/-- Claim C10: a recommendation whose (article_id, source_site) pair
matches no source record makes the consistency check (check 1) fail, but
the stock-bound check (check 3) skips it — it never contributes a
stock-bound exceedance, and check 3 can still pass. -/
theorem dangling_recommendation_asymmetry (recs : List Rec) (orig : List Row) (rec : Rec)
    (hmem : rec ∈ recs) (hdangling : lookup_source orig rec = []) :
    (∃ r : Rec, check1 recs orig = "❌ Article " ++ r.article ++ " 和 OM " ++ r.om ++ " 不一致")
    ∧ exceedB orig rec = false
    ∧ ((∀ x ∈ recs, exceedB orig x = false) →
        check3 recs orig = "✅ Return Qty 不超過原庫存") := by
  have hcb : consistentB orig rec = false := by
    unfold consistentB
    rw [hdangling]
  refine ⟨?_, ?_, ?_⟩
  · cases hf : recs.find? (fun y => !consistentB orig y) with
    | none =>
      have h2 := List.find?_eq_none.mp hf rec hmem
      rw [hcb] at h2
      exact absurd rfl h2
    | some r =>
      refine ⟨r, ?_⟩
      unfold check1
      rw [hf]
  · unfold exceedB
    rw [hdangling]
  · intro hall
    have hany : recs.any (exceedB orig) = false := by
      rw [List.any_eq_false]
      intro x hx
      simp [hall x hx]
    unfold check3
    rw [hany]
    rfl

lemma safe_convert_nonneg (v : RawVal) : 0 ≤ safe_convert_to_int v := by
  cases v <;> simp [safe_convert_to_int]

/-- Claim C5: after `preprocess_data` every one of the five integer fields
is a non-negative integer (negative, missing or unparsable inputs become
0), the two sales fields are at most 100000, any clamped value is
annotated with the clamped field's name in the row's Notes, and no row is
dropped. -/
theorem normalization_invariants (rows : List RawRow) (r : RawRow) :
    (preprocess_data rows).length = rows.length
    ∧ 0 ≤ (preprocess_row r).sasaNetStock
    ∧ 0 ≤ (preprocess_row r).pendingReceived
    ∧ 0 ≤ (preprocess_row r).safetyStock
    ∧ 0 ≤ (preprocess_row r).lastMonthSoldQty
    ∧ 0 ≤ (preprocess_row r).mtdSoldQty
    ∧ (preprocess_row r).lastMonthSoldQty ≤ 100000
    ∧ (preprocess_row r).mtdSoldQty ≤ 100000
    ∧ safe_convert_to_int RawVal.na = 0
    ∧ safe_convert_to_int RawVal.bad = 0
    ∧ (∀ q : ℚ, q ≤ 0 → safe_convert_to_int (RawVal.num q) = 0)
    ∧ (100000 < safe_convert_to_int r.lastMonthSoldQty →
        (preprocess_row r).lastMonthSoldQty = 100000 ∧
        "Last Month Sold Qty銷量數據超出範圍".data <:+: (preprocess_row r).notes.data)
    ∧ (100000 < safe_convert_to_int r.mtdSoldQty →
        (preprocess_row r).mtdSoldQty = 100000 ∧
        "MTD Sold Qty銷量數據超出範圍".data <:+: (preprocess_row r).notes.data) := by
  refine ⟨by simp [preprocess_data], ?_, ?_, ?_, ?_, ?_, ?_, ?_, rfl, rfl, ?_, ?_, ?_⟩
  · exact safe_convert_nonneg r.sasaNetStock
  · exact safe_convert_nonneg r.pendingReceived
  · exact safe_convert_nonneg r.safetyStock
  · simp only [preprocess_row]
    split_ifs with h
    · decide
    · exact safe_convert_nonneg r.lastMonthSoldQty
  · simp only [preprocess_row]
    split_ifs with h
    · decide
    · exact safe_convert_nonneg r.mtdSoldQty
  · simp only [preprocess_row]
    split_ifs with h
    · exact le_refl _
    · omega
  · simp only [preprocess_row]
    split_ifs with h
    · exact le_refl _
    · omega
  · intro q hq
    simp only [safe_convert_to_int, int_trunc]
    split_ifs with h0
    · have hq0 : q = 0 := le_antisymm hq h0
      subst hq0
      simp
    · have hc : ⌈q⌉ ≤ (0:ℤ) := Int.ceil_le.mpr (by exact_mod_cast hq)
      omega
  · intro h
    constructor
    · simp [preprocess_row, h]
    · by_cases hm : 100000 < safe_convert_to_int r.mtdSoldQty
      · simp only [preprocess_row, if_pos h, if_pos hm]
        decide
      · simp only [preprocess_row, if_pos h, if_neg hm]
        decide
  · intro h
    constructor
    · simp [preprocess_row, h]
    · by_cases hl : 100000 < safe_convert_to_int r.lastMonthSoldQty
      · simp only [preprocess_row, if_pos h, if_pos hl]
        decide
      · simp only [preprocess_row, if_pos h, if_neg hl]
        decide

/-- A raw row whose Last Month Sold Qty cell exceeds the 100000 cap. -/
def raw_big : RawRow :=
  { article := RawStr.s "1", articleDescription := RawStr.na, productHierarchy := RawStr.na
    om := RawStr.s "OM1", rpType := RawStr.s "RF", site := RawStr.s "S1"
    sasaNetStock := RawVal.num 5, pendingReceived := RawVal.num 0
    safetyStock := RawVal.num 1
    lastMonthSoldQty := RawVal.num 200000, mtdSoldQty := RawVal.num 1
    notes := RawStr.na }

theorem normalization_invariants_witness :
    (preprocess_data [raw_big]).length = [raw_big].length
    ∧ (preprocess_row raw_big).lastMonthSoldQty = 100000
    ∧ "Last Month Sold Qty銷量數據超出範圍".data <:+: (preprocess_row raw_big).notes.data := by
  obtain ⟨hlen, -, -, -, -, -, -, -, -, -, -, hclamp, -⟩ :=
    normalization_invariants [raw_big] raw_big
  have hbig0 : safe_convert_to_int raw_big.lastMonthSoldQty = 200000 := by
    with_unfolding_all rfl
  have hbig : 100000 < safe_convert_to_int raw_big.lastMonthSoldQty := by
    rw [hbig0]
    decide
  obtain ⟨hcap, hnote⟩ := hclamp hbig
  exact ⟨hlen, hcap, hnote⟩

/-- A raw input row that already carries a notes annotation. -/
def raw_with_notes : RawRow :=
  { article := RawStr.s "1", articleDescription := RawStr.na, productHierarchy := RawStr.na
    om := RawStr.s "OM1", rpType := RawStr.s "RF", site := RawStr.s "S1"
    sasaNetStock := RawVal.na, pendingReceived := RawVal.na, safetyStock := RawVal.na
    lastMonthSoldQty := RawVal.na, mtdSoldQty := RawVal.na
    notes := RawStr.s "sales value out of range" }

/-- Claim C6, counterexample: an input row with a non-empty notes
annotation comes out of `preprocess_data` with empty Notes — the existing
annotation is overwritten, not preserved (app.py line 66 resets the Notes
column). -/
theorem notes_not_preserved :
    raw_with_notes.notes = RawStr.s "sales value out of range"
    ∧ (preprocess_row raw_with_notes).notes = "" :=
  ⟨rfl, rfl⟩

/-- Claim C6 (amended): `preprocess_data` does not accumulate onto the
input's notes — it overwrites them: the output row is independent of the
input row's notes cell, and when neither sales field is clamped the output
Notes is empty even if the input carried an annotation. -/
theorem notes_overwritten (r : RawRow) (s : RawStr) :
    preprocess_row { r with notes := s } = preprocess_row r
    ∧ (safe_convert_to_int r.lastMonthSoldQty ≤ 100000 →
        safe_convert_to_int r.mtdSoldQty ≤ 100000 →
        (preprocess_row r).notes = "") := by
  constructor
  · rfl
  · intro h1 h2
    simp only [preprocess_row, if_neg (not_lt.mpr h1), if_neg (not_lt.mpr h2)]
    rfl

theorem notes_overwritten_witness :
    preprocess_row { raw_with_notes with notes := RawStr.na } = preprocess_row raw_with_notes
    ∧ (preprocess_row raw_with_notes).notes = "" := by
  obtain ⟨hfr, hemp⟩ := notes_overwritten raw_with_notes RawStr.na
  exact ⟨hfr, hemp (by decide) (by decide)⟩

theorem dangling_recommendation_witness :
    (∃ r : Rec, check1 [rec_dangling] [src_dup1]
        = "❌ Article " ++ r.article ++ " 和 OM " ++ r.om ++ " 不一致")
    ∧ exceedB [src_dup1] rec_dangling = false
    ∧ ((∀ x ∈ [rec_dangling], exceedB [src_dup1] x = false) →
        check3 [rec_dangling] [src_dup1] = "✅ Return Qty 不超過原庫存") :=
  dangling_recommendation_asymmetry [rec_dangling] [src_dup1] rec_dangling
    (by decide) rfl

/-- Which named columns are present in an input table. -/
structure Cols where
  article : Bool
  articleDescription : Bool
  productHierarchy : Bool
  om : Bool
  rpType : Bool
  site : Bool
  sasaNetStock : Bool
  pendingReceived : Bool
  safetyStock : Bool
  lastMonthSoldQty : Bool
  mtdSoldQty : Bool
  notes : Bool
deriving DecidableEq

/-- A raw table: the set of present columns and the rows. -/
structure RawTable where
  cols : Cols
  rows : List RawRow
deriving DecidableEq

/-- A processed table (output of `preprocess_data_t`). -/
structure Table where
  cols : Cols
  rows : List Row
deriving DecidableEq

/-- `preprocess_data` per row when some columns may be absent: a present
column is converted as in `preprocess_row`; the cell of an absent column
holds the default a later `row.get(col, default)` would produce (0 or ""),
and `generate_return_recommendations_t` errors before ever reading an
absent required column. -/
def preprocess_row_cols (cols : Cols) (r : RawRow) : Row :=
  let lm0 := if cols.lastMonthSoldQty then safe_convert_to_int r.lastMonthSoldQty else 0
  let mtd0 := if cols.mtdSoldQty then safe_convert_to_int r.mtdSoldQty else 0
  let lmNotes := if 100000 < lm0 then ["Last Month Sold Qty銷量數據超出範圍"] else []
  let mtdNotes := if 100000 < mtd0 then ["MTD Sold Qty銷量數據超出範圍"] else []
  { article := convert_to_string_format r.article
    articleDescription := if cols.articleDescription then raw_passthrough r.articleDescription else ""
    productHierarchy := if cols.productHierarchy then raw_passthrough r.productHierarchy else ""
    om := if cols.om then safe_convert_to_string r.om else ""
    rpType := if cols.rpType then safe_convert_to_string r.rpType else ""
    site := if cols.site then safe_convert_to_string r.site else ""
    sasaNetStock := if cols.sasaNetStock then safe_convert_to_int r.sasaNetStock else 0
    pendingReceived := if cols.pendingReceived then safe_convert_to_int r.pendingReceived else 0
    safetyStock := if cols.safetyStock then safe_convert_to_int r.safetyStock else 0
    lastMonthSoldQty := if 100000 < lm0 then 100000 else lm0
    mtdSoldQty := if 100000 < mtd0 then 100000 else mtd0
    notes := String.intercalate "; " (lmNotes ++ mtdNotes) }

/-- app.py lines 46-80 at table level: `df_processed['Article']` is read
unconditionally (line 51), so a missing Article column raises a KeyError
naming it even on an empty table; every other column access is guarded by
`if col in df_processed.columns`; the Notes column is (re)created. -/
def preprocess_data_t (t : RawTable) : Except String Table :=
  if t.cols.article = false then Except.error "KeyError: Article"
  else Except.ok { cols := { t.cols with notes := true }
                   rows := t.rows.map (preprocess_row_cols t.cols) }

/-- app.py lines 111-220 at table level: the per-row loop body (lines
121-127) reads Article, OM, RP Type, Site, SaSa Net Stock, Pending
Received and Safety Stock unconditionally, so processing the first row
raises a KeyError naming the first absent one in access order; with zero
rows the loop body never runs and an empty recommendation list is
returned; the sales and hierarchy columns are read via `.get` defaults. -/
def generate_return_recommendations_t (t : Table) (calculation_type : String) :
    Except String (List Rec) :=
  if t.rows.isEmpty then Except.ok []
  else if t.cols.article = false then Except.error "KeyError: Article"
  else if t.cols.om = false then Except.error "KeyError: OM"
  else if t.cols.rpType = false then Except.error "KeyError: RP Type"
  else if t.cols.site = false then Except.error "KeyError: Site"
  else if t.cols.sasaNetStock = false then Except.error "KeyError: SaSa Net Stock"
  else if t.cols.pendingReceived = false then Except.error "KeyError: Pending Received"
  else if t.cols.safetyStock = false then Except.error "KeyError: Safety Stock"
  else Except.ok (generate_return_recommendations t.rows calculation_type)

/-- The pipeline a run executes (app.py lines 665-668): preprocess, then
generate; an uncaught exception in either aborts the run. -/
def run_pipeline (t : RawTable) (calculation_type : String) : Except String (List Rec) :=
  match preprocess_data_t t with
  | Except.error e => Except.error e
  | Except.ok t2 => generate_return_recommendations_t t2 calculation_type

/-- Claim C7 (amended): a missing Article column always aborts the pipeline
with an error naming it; a missing OM, RP Type, Site, SaSa Net Stock,
Pending Received or Safety Stock column aborts the pipeline with an error
naming a missing column PROVIDED the table has at least one row — on a
zero-row table those columns are never read and the pipeline silently
returns an empty recommendation list. -/
theorem missing_column_failfast (t : RawTable) (ct : String) :
    (t.cols.article = false → run_pipeline t ct = Except.error "KeyError: Article")
    ∧ (t.cols.article = true → t.rows ≠ [] →
        (t.cols.om = false ∨ t.cols.rpType = false ∨ t.cols.site = false ∨
          t.cols.sasaNetStock = false ∨ t.cols.pendingReceived = false ∨
          t.cols.safetyStock = false) →
        ∃ e, run_pipeline t ct = Except.error e ∧
          e ∈ ["KeyError: OM", "KeyError: RP Type", "KeyError: Site",
               "KeyError: SaSa Net Stock", "KeyError: Pending Received",
               "KeyError: Safety Stock"]) := by
  constructor
  · intro h
    simp [run_pipeline, preprocess_data_t, h]
  · intro ha hne hmiss
    have hemp : (t.rows.map (preprocess_row_cols t.cols)).isEmpty = false := by
      cases hr : t.rows with
      | nil => exact absurd hr hne
      | cons a l => simp [hr]
    have hstep : run_pipeline t ct =
        generate_return_recommendations_t
          { cols := { t.cols with notes := true }
            rows := t.rows.map (preprocess_row_cols t.cols) } ct := by
      simp [run_pipeline, preprocess_data_t, ha]
    rw [hstep]
    unfold generate_return_recommendations_t
    cases hom : t.cols.om with
    | false =>
      refine ⟨"KeyError: OM", ?_, by simp⟩
      simp [hemp, ha, hom]
    | true =>
      cases hrp : t.cols.rpType with
      | false =>
        refine ⟨"KeyError: RP Type", ?_, by simp⟩
        simp [hemp, ha, hom, hrp]
      | true =>
        cases hsite : t.cols.site with
        | false =>
          refine ⟨"KeyError: Site", ?_, by simp⟩
          simp [hemp, ha, hom, hrp, hsite]
        | true =>
          cases hns : t.cols.sasaNetStock with
          | false =>
            refine ⟨"KeyError: SaSa Net Stock", ?_, by simp⟩
            simp [hemp, ha, hom, hrp, hsite, hns]
          | true =>
            cases hpr : t.cols.pendingReceived with
            | false =>
              refine ⟨"KeyError: Pending Received", ?_, by simp⟩
              simp [hemp, ha, hom, hrp, hsite, hns, hpr]
            | true =>
              cases hss : t.cols.safetyStock with
              | false =>
                refine ⟨"KeyError: Safety Stock", ?_, by simp⟩
                simp [hemp, ha, hom, hrp, hsite, hns, hpr, hss]
              | true =>
                rcases hmiss with h | h | h | h | h | h <;> simp_all

/-- All required columns present except OM. -/
def cols_no_om : Cols :=
  { article := true, articleDescription := true, productHierarchy := true
    om := false, rpType := true, site := true, sasaNetStock := true
    pendingReceived := true, safetyStock := true, lastMonthSoldQty := true
    mtdSoldQty := true, notes := false }

/-- Claim C7, counterexample: the required OM column is absent, yet on a
zero-row table the pipeline does not fail — it silently returns an empty
recommendation list (the per-row KeyError is only raised when the loop
body runs). -/
theorem missing_column_counterexample :
    cols_no_om.om = false
    ∧ run_pipeline { cols := cols_no_om, rows := [] } "both" = Except.ok [] :=
  ⟨rfl, rfl⟩

theorem missing_column_witness :
    ∃ e, run_pipeline { cols := cols_no_om, rows := [raw_with_notes] } "both"
        = Except.error e ∧
      e ∈ ["KeyError: OM", "KeyError: RP Type", "KeyError: Site",
           "KeyError: SaSa Net Stock", "KeyError: Pending Received",
           "KeyError: Safety Stock"] :=
  (missing_column_failfast { cols := cols_no_om, rows := [raw_with_notes] } "both").2
    rfl (by simp) (Or.inl rfl)

/-- pandas `df.copy()`: a fresh (deep) copy of the caller's dataframe. -/
def pandas_copy (df : List RawRow) : List RawRow :=
  df.map (fun r => r)

/-- The two dataframes in scope inside `preprocess_data` (app.py lines
46-80): the caller's `df` and the working copy `df_processed`.  Each
statement of the function body is modelled as a state transformer, making
explicit which frame it writes. -/
structure PreprocessState where
  df : List RawRow
  df_processed : List RawRow
deriving DecidableEq

/-- app.py line 51: Article column canonicalisation (writes the copy). -/
def step_article (st : PreprocessState) : PreprocessState :=
  { st with df_processed := st.df_processed.map (fun r =>
      { r with article := RawStr.s (convert_to_string_format r.article) }) }

/-- app.py lines 54-57: the three string columns (writes the copy). -/
def step_string_cols (st : PreprocessState) : PreprocessState :=
  { st with df_processed := st.df_processed.map (fun r =>
      { r with om := RawStr.s (safe_convert_to_string r.om)
               rpType := RawStr.s (safe_convert_to_string r.rpType)
               site := RawStr.s (safe_convert_to_string r.site) }) }

/-- app.py lines 60-63: the five integer columns (writes the copy). -/
def step_int_cols (st : PreprocessState) : PreprocessState :=
  { st with df_processed := st.df_processed.map (fun r =>
      { r with sasaNetStock := RawVal.num ((safe_convert_to_int r.sasaNetStock : ℤ) : ℚ)
               pendingReceived := RawVal.num ((safe_convert_to_int r.pendingReceived : ℤ) : ℚ)
               safetyStock := RawVal.num ((safe_convert_to_int r.safetyStock : ℤ) : ℚ)
               lastMonthSoldQty := RawVal.num ((safe_convert_to_int r.lastMonthSoldQty : ℤ) : ℚ)
               mtdSoldQty := RawVal.num ((safe_convert_to_int r.mtdSoldQty : ℤ) : ℚ) }) }

/-- app.py line 66: the Notes column is reset to "" (writes the copy). -/
def step_init_notes (st : PreprocessState) : PreprocessState :=
  { st with df_processed := st.df_processed.map (fun r =>
      { r with notes := RawStr.s "" }) }

/-- Integer value held by an already-converted numeric cell. -/
def cell_int : RawVal → ℤ
  | .na => 0
  | .num q => int_trunc q
  | .bad => 0

/-- app.py lines 68-78: the clamp loop writes the two sales cells and the
Notes cell of each row of the copy. -/
def step_clamp_loop (st : PreprocessState) : PreprocessState :=
  { st with df_processed := st.df_processed.map (fun r =>
      let lm := cell_int r.lastMonthSoldQty
      let mtd := cell_int r.mtdSoldQty
      let lmNotes := if 100000 < lm then ["Last Month Sold Qty銷量數據超出範圍"] else []
      let mtdNotes := if 100000 < mtd then ["MTD Sold Qty銷量數據超出範圍"] else []
      { r with lastMonthSoldQty := if 100000 < lm then RawVal.num 100000 else r.lastMonthSoldQty
               mtdSoldQty := if 100000 < mtd then RawVal.num 100000 else r.mtdSoldQty
               notes := RawStr.s (String.intercalate "; " (lmNotes ++ mtdNotes)) }) }

/-- app.py lines 46-80 with mutation made explicit: line 48 deep-copies the
caller's frame, and every subsequent statement writes only `df_processed`. -/
def preprocess_data_state (df : List RawRow) : PreprocessState :=
  step_clamp_loop (step_init_notes (step_int_cols (step_string_cols (step_article
    { df := df, df_processed := pandas_copy df }))))

/-- Claim C9: `preprocess_data` never mutates its input table — after the
call the caller's frame is exactly the input (the function works on
`df.copy()` and every write targets the copy), so the same source table
can be reused for another run. -/
theorem preprocess_preserves_input (df : List RawRow) :
    (preprocess_data_state df).df = df := by
  simp [preprocess_data_state, step_clamp_loop, step_init_notes, step_int_cols,
        step_string_cols, step_article, pandas_copy]

/-- Concrete rows exercising both branches of the engine. -/
def row_nd0 : Row :=
  { article := "000000000001", articleDescription := "P1", productHierarchy := ""
    om := "OM1", rpType := "ND", site := "H001"
    sasaNetStock := 10, pendingReceived := 0, safetyStock := 5
    lastMonthSoldQty := 3, mtdSoldQty := 2, notes := "" }

def row_rf0 : Row :=
  { article := "000000000002", articleDescription := "P2", productHierarchy := ""
    om := "OM1", rpType := "RF", site := "H002"
    sasaNetStock := 10, pendingReceived := 0, safetyStock := 2
    lastMonthSoldQty := 0, mtdSoldQty := 0, notes := "" }

def row_rf_peer0 : Row :=
  { article := "000000000002", articleDescription := "P2", productHierarchy := ""
    om := "OM2", rpType := "RF", site := "H003"
    sasaNetStock := 0, pendingReceived := 0, safetyStock := 100
    lastMonthSoldQty := 10, mtdSoldQty := 0, notes := "" }

def df0 : List Row := [row_nd0, row_rf0, row_rf_peer0]

/-- The RF recommendation the engine emits for `row_rf0` in `df0`. -/
def rf_rec0 : Rec :=
  { article := "000000000002", productDesc := "P2", productHierarchy := ""
    om := "OM1", returnSite := "H002", receiveSite := "D001"
    returnQty := 7, rpType := "RF", stockQty := 10, safetyQty := 2
    lastMonthSoldQty := 0, mtdSoldQty := 0
    remainingStockAfterReturn := 3, notes := "RF類型過剩退倉", typ := "RF" }

theorem rf_recommendation_bounds_witness :
    ∃ row ∈ df0, evaluate_row df0 "both" row = some rf_rec0 ∧
      2 ≤ rf_rec0.returnQty ∧ rf_rec0.returnQty ≤ row.sasaNetStock ∧
      min_remaining_spec row ≤ row.sasaNetStock + row.pendingReceived - rf_rec0.returnQty := by
  apply rf_recommendation_bounds df0 "both" rf_rec0 (by decide) ?_ rfl
  unfold generate_return_recommendations
  exact List.mem_filterMap.mpr ⟨row_rf0, by decide, by with_unfolding_all rfl⟩

theorem nd_rule_witness :
    ∃ rec, evaluate_row df0 "both" row_nd0 = some rec ∧ rec.typ = "ND" ∧
      rec.returnQty = row_nd0.sasaNetStock ∧ rec.remainingStockAfterReturn = 0 :=
  (nd_rule df0 "both" row_nd0 rfl).1 (Or.inr rfl) (by decide)

theorem filter_partition_witness :
    (generate_return_recommendations df0 "both").length
      = (generate_return_recommendations df0 "nd_only").length
        + (generate_return_recommendations df0 "rf_only").length :=
  (filter_partition df0).1

/-- An RF record that is the only carrier of its article. -/
def row_rf_solo : Row :=
  { article := "000000000009", articleDescription := "P9", productHierarchy := ""
    om := "OM1", rpType := "RF", site := "H009"
    sasaNetStock := 10, pendingReceived := 0, safetyStock := 2
    lastMonthSoldQty := 4, mtdSoldQty := 0, notes := "" }

def df1 : List Row := [row_rf_solo]

theorem top20_threshold_edge_cases_witness :
    get_top20_percent_threshold df0 "NOPE" = none
    ∧ get_top20_percent_threshold df1 row_rf_solo.article
        = some ((calculate_effective_sold_qty row_rf_solo : ℤ) : ℚ)
    ∧ evaluate_row df1 "both" row_rf_solo = none := by
  obtain ⟨h1, -⟩ := top20_threshold_edge_cases df0 "NOPE" "both" row_rf_solo
  obtain ⟨-, h2⟩ := top20_threshold_edge_cases df1 "NOPE" "both" row_rf_solo
  obtain ⟨h2a, h2b⟩ := h2 (by decide)
  exact ⟨h1 (by decide), h2a, h2b rfl⟩

end WinMax
